import Mathlib

/-!
# BackupEntry controller registration

A verification development for
`extensions/pkg/controller/backupentry/controller.go`: the default predicate
sets (`DefaultPredicates`), the entry point `Add` and the watch registration
`add`.

The controller runtime (`controller.New`, `Controller.Watch`) is an external
collaborator.  It is represented by a `Runtime` record that fixes the outcome
of every call, and by a `Trace` that records what `add` asked of it.
Go structs that carry behaviour (handlers, mappers) are records or
constructors together with the function interpreting them; predicates are
functions from an event to `Bool`.
-/

namespace Backupentry

/-! ## Constants -/

/-- The backupentry controller finalizer. -/
def FinalizerName : String := "extensions.gardener.cloud/backupentry"

/-- The name of the controller. -/
def ControllerName : String := "backupentry_controller"

/-! ## Events and predicates -/

/-- An event on a BackupEntry as the predicates see it: the key and the
declared type of the object, and the answers of the four leaf predicates
used by `DefaultPredicates`. -/
structure Event where
  objNamespace : String
  objName : String
  objType : String
  hasOpAnnotation : Bool
  lastOpFailed : Bool
  isDeleting : Bool
  generationChanged : Bool

/-- A predicate decides whether an event is admitted. -/
abbrev Predicate : Type := Event → Bool

/-- Modelled from the spec: `predicate.GenerationChangedPredicate` is not part
of the source; it admits when the generation changed between old and new. -/
def GenerationChangedPredicate : Predicate := fun e => e.generationChanged

/-- Modelled from the spec: `extensionspredicate.HasOperationAnnotation` is
not part of the source; it admits when the object carries the operation
annotation. -/
def HasOperationAnnotation : Predicate := fun e => e.hasOpAnnotation

/-- Modelled from the spec: `extensionspredicate.LastOperationNotSuccessful`
is not part of the source; it admits when the last recorded operation was not
successful. -/
def LastOperationNotSuccessful : Predicate := fun e => e.lastOpFailed

/-- Modelled from the spec: `extensionspredicate.IsDeleting` is not part of
the source; it admits when the object is being deleted. -/
def IsDeleting : Predicate := fun e => e.isDeleting

/-- Modelled from the spec: `extensionspredicate.Or` is not part of the
source; the OR combinator admits when one of its arguments admits, tried left
to right. -/
def Or (predicates : List Predicate) : Predicate :=
  fun e => predicates.any (fun p => p e)

/-- Modelled from the spec: the type predicate built by
`extensionspredicate.AddTypePredicate` is not part of the source; it admits
objects whose declared type equals the given type string. -/
def HasType (extensionType : String) : Predicate :=
  fun e => decide (e.objType = extensionType)

/-- Modelled from the spec: `extensionspredicate.AddTypePredicate` is not part
of the source; the given predicates are kept and a final predicate narrows
matches to the configured type. -/
def AddTypePredicate (predicates : List Predicate) (extensionType : String) :
    List Predicate :=
  predicates ++ [HasType extensionType]

/-- Modelled from the spec: a predicate list attached to a watch admits an
event when every element admits it, evaluated left to right. -/
def admits (predicates : List Predicate) (e : Event) : Bool :=
  predicates.all (fun p => p e)

/-- The default predicates for a controlplane reconciler
(`DefaultPredicates`). -/
def DefaultPredicates ( ignoreOperationAnnotation : Bool) : List Predicate :=
  if ignoreOperationAnnotation then
    [GenerationChangedPredicate]
  else
    [ Or [ HasOperationAnnotation, LastOperationNotSuccessful, IsDeleting ],
      Or [ HasOperationAnnotation, GenerationChangedPredicate ] ]

/-! ## Client, mappers and handlers -/

/-- A reconcile request: the key of the BackupEntry to reconcile. -/
structure Request where
  reqNamespace : String
  reqName : String
deriving DecidableEq, Repr

/-- The key of a watched object. -/
structure Object where
  objNamespace : String
  objName : String
deriving DecidableEq, Repr

/-- Modelled from the spec: the client returned by `mgr.GetClient()` is an
injected lookup capability.  Each lookup answers `none` when it fails and
otherwise the BackupEntries associated with the namespace (by namespace name)
or with the secret (by secret key). -/
structure Client where
  backupEntriesOfNamespace : String → Option (List Event)
  backupEntriesOfSecret : Object → Option (List Event)

/-- The manager, as far as this file uses it: `GetClient`. -/
structure Manager where
  GetClient : Client

/-- The value built by `NamespaceToBackupEntryMapper(client, predicates)` or
`SecretToBackupEntryMapper(client, predicates)`. -/
inductive Mapper where
  | NamespaceToBackupEntryMapper (client : Client) (predicates : List Predicate)
  | SecretToBackupEntryMapper (client : Client) (predicates : List Predicate)

/-- The predicate list a mapper was given. -/
def Mapper.predicates : Mapper → List Predicate
  | .NamespaceToBackupEntryMapper _ ps => ps
  | .SecretToBackupEntryMapper _ ps => ps

/-- The request for a BackupEntry: its namespace and name. -/
def requestFor (be : Event) : Request :=
  { reqNamespace := be.objNamespace, reqName := be.objName }

/-- Modelled from the spec: the mappers are not part of the source.  A mapper
looks up the BackupEntries associated with the object and yields one request
for each of them that passes the predicates; a failed lookup yields no
request. -/
def Mapper.Map : Mapper → Object → List Request
  | .NamespaceToBackupEntryMapper client ps, obj =>
    match client.backupEntriesOfNamespace obj.objName with
    | none => []
    | some bes => (bes.filter (admits ps)).map requestFor
  | .SecretToBackupEntryMapper client ps, obj =>
    match client.backupEntriesOfSecret obj with
    | none => []
    | some bes => (bes.filter (admits ps)).map requestFor

/-- The update behaviour named in the source,
`extensionshandler.UpdateWithNew`. -/
inductive UpdateBehavior where
  | UpdateWithNew
deriving DecidableEq, Repr

/-- An event delivered by a watch. -/
inductive WatchEvent where
  | Create (obj : Object)
  | Update (objectOld objectNew : Object)
  | Delete (obj : Object)
  | Generic (obj : Object)
deriving DecidableEq, Repr

/-- The value built by `extensionshandler.SimpleMapper(mapper, behavior)`. -/
structure SimpleMapper where
  mapper : Mapper
  updateBehavior : UpdateBehavior

/-- Modelled from the spec: `extensionshandler.SimpleMapper` is not part of
the source.  With update-with-new-object semantics the mapper is given the new
state on update events; the other events are mapped with their single
object. -/
def SimpleMapper.ToRequests (s : SimpleMapper) : WatchEvent → List Request
  | .Create obj => s.mapper.Map obj
  | .Update _ objectNew =>
    match s.updateBehavior with
    | .UpdateWithNew => s.mapper.Map objectNew
  | .Delete obj => s.mapper.Map obj
  | .Generic obj => s.mapper.Map obj

/-- The two event handlers used by `add`. -/
inductive EventHandler where
  | EnqueueRequestsFromMapFunc (ToRequests : SimpleMapper)
  | EnqueueRequestForObject

/-- The watched kinds, `source.Kind` with its `Type`. -/
inductive Kind where
  | Namespace
  | Secret
  | BackupEntry
deriving DecidableEq, Repr

/-- The arguments of one `ctrl.Watch` call. -/
structure WatchCall where
  src : Kind
  handler : EventHandler
  predicates : List Predicate

/-! ## The controller runtime -/

/-- An error value of the controller runtime. -/
abbrev Err : Type := String

/-- The options of `controller.New`.  The declaration is not part of the
source: `Reconciler` is the field the source assigns, `others` stands for
every other field. -/
structure Options (R O : Type) where
  Reconciler : R
  others : O

/-- The outcome of each call into the controller runtime: `newErr` is the
error of `controller.New`, `watchErr i` the error of the `i`-th `Watch` call on
the new controller (counted from 0); `none` means success. -/
structure Runtime where
  newErr : Option Err
  watchErr : Nat → Option Err

/-- What `add` asked of the controller runtime, and what the runtime holds
afterwards: the arguments of `controller.New`, whether the controller was
created, every `Watch` call made, and the watches registered. -/
structure Trace (R O : Type) where
  newCalls : List (String × Options R O)
  created : Bool
  watchCalls : List WatchCall
  watches : List WatchCall

/-- Modelled from the spec: `controller.New(name, mgr, options)` creates a
controller with no watches or fails with the error of the runtime. -/
def controller.New {R O : Type} (rt : Runtime) (name : String) (_mgr : Manager)
    (options : Options R O) : Option Err × Trace R O :=
  match rt.newErr with
  | some err =>
    (some err, { newCalls := [(name, options)], created := false,
                 watchCalls := [], watches := [] })
  | none =>
    (none, { newCalls := [(name, options)], created := true,
             watchCalls := [], watches := [] })

/-- Modelled from the spec: `ctrl.Watch(src, handler, predicates...)`
registers the watch, or fails with the error of the runtime and no side
effect on the watches already registered. -/
def Trace.Watch {R O : Type} (rt : Runtime) (ctrl : Trace R O) (src : Kind)
    (handler : EventHandler) (predicates : List Predicate) :
    Option Err × Trace R O :=
  let call : WatchCall := { src := src, handler := handler, predicates := predicates }
  match rt.watchErr ctrl.watchCalls.length with
  | some err => (some err, { ctrl with watchCalls := ctrl.watchCalls ++ [call] })
  | none =>
    (none, { ctrl with watchCalls := ctrl.watchCalls ++ [call],
                       watches := ctrl.watches ++ [call] })

/-! ## Add and add -/

/-- The arguments for adding a BackupEntry controller to a manager
(`AddArgs`). -/
structure AddArgs (A R O : Type) where
  Actuator : A
  ControllerOptions : Options R O
  Predicates : List Predicate
  Type' : String

/-- The function `add`: adds a new controller to `mgr` and registers its
watches. -/
def add {R O : Type} (rt : Runtime) (mgr : Manager) (options : Options R O)
    (predicates : List Predicate) : Option Err × Trace R O :=
  match controller.New rt ControllerName mgr options with
  | (some err, ctrl) => (some err, ctrl)
  | (none, ctrl) =>
    match ctrl.Watch rt Kind.Namespace
        (EventHandler.EnqueueRequestsFromMapFunc
          { mapper := Mapper.NamespaceToBackupEntryMapper mgr.GetClient predicates,
            updateBehavior := UpdateBehavior.UpdateWithNew })
        [] with
    | (some err, ctrl) => (some err, ctrl)
    | (none, ctrl) =>
      match ctrl.Watch rt Kind.Secret
          (EventHandler.EnqueueRequestsFromMapFunc
            { mapper := Mapper.SecretToBackupEntryMapper mgr.GetClient predicates,
              updateBehavior := UpdateBehavior.UpdateWithNew })
          [] with
      | (some err, ctrl) => (some err, ctrl)
      | (none, ctrl) =>
        ctrl.Watch rt Kind.BackupEntry EventHandler.EnqueueRequestForObject predicates

/-- The function `Add`: creates a new BackupEntry controller and adds it to
the manager.  `NewReconciler` is not part of the source and is a parameter. -/
def Add {A R O : Type} (NewReconciler : Manager → A → R) (rt : Runtime)
    (mgr : Manager) (args : AddArgs A R O) : Option Err × Trace R O :=
  let args : AddArgs A R O :=
    { args with ControllerOptions :=
        { args.ControllerOptions with Reconciler := NewReconciler mgr args.Actuator } }
  let predicates := AddTypePredicate args.Predicates args.Type'
  add rt mgr args.ControllerOptions predicates

/-! ## Observations on a watch call -/

/-- The map function of a handler, when it is a mapping handler. -/
def EventHandler.mapFunc? : EventHandler → Option SimpleMapper
  | .EnqueueRequestsFromMapFunc f => some f
  | .EnqueueRequestForObject => none

/-- Whether a handler is the direct enqueue-for-object handler. -/
def EventHandler.isDirect : EventHandler → Bool
  | .EnqueueRequestsFromMapFunc _ => false
  | .EnqueueRequestForObject => true

/-- The predicate list attached to a watch: the list given to the mapper of a
mapping handler, or the list passed to `Watch` with the direct handler. -/
def WatchCall.attachedPredicates (w : WatchCall) : List Predicate :=
  match w.handler with
  | .EnqueueRequestsFromMapFunc f => f.mapper.predicates
  | .EnqueueRequestForObject => w.predicates

/-! ## Concrete inputs -/

/-- A runtime in which `controller.New` and every `Watch` call succeed. -/
def okRuntime : Runtime :=
  { newErr := none, watchErr := fun _ => none }

/-- A runtime in which only the second `Watch` call fails. -/
def secondWatchFails : Runtime :=
  { newErr := none, watchErr := fun i => if i = 1 then some "watch failed" else none }

/-- The BackupEntry `be-1` in namespace `ns-1`, of type `gcp`. -/
def be1 : Event :=
  { objNamespace := "ns-1", objName := "be-1", objType := "gcp",
    hasOpAnnotation := true, lastOpFailed := false, isDeleting := false,
    generationChanged := false }

/-- A client that associates `be-1` with the namespace `ns-1` and nothing
else. -/
def exampleClient : Client :=
  { backupEntriesOfNamespace := fun n => if n = "ns-1" then some [be1] else some [],
    backupEntriesOfSecret := fun _ => some [] }

/-- A manager with the example client. -/
def exampleManager : Manager := { GetClient := exampleClient }

/-- The namespace object `ns-1`. -/
def ns1 : Object := { objNamespace := "", objName := "ns-1" }

/-! ## The default predicates -/

/-- C1: for every event, the list `DefaultPredicates(false)`, evaluated as the
conjunction of its elements, admits the event if and only if
(hasOpAnnotation or lastOpFailed or isDeleting) and
(hasOpAnnotation or generationChanged). -/
theorem defaultPredicates_false_admits_iff (e : Event) :
    admits (DefaultPredicates false) e = true ↔
      ( e.hasOpAnnotation = true ∨ e.lastOpFailed = true ∨ e.isDeleting = true) ∧
      ( e.hasOpAnnotation = true ∨ e.generationChanged = true) := by
  simp [admits, DefaultPredicates, Or, HasOperationAnnotation,
    LastOperationNotSuccessful, IsDeleting, GenerationChangedPredicate]

/-- C2: for every event, the list `DefaultPredicates(true)` admits the event
if and only if its generation changed, whatever the other three flags are. -/
theorem defaultPredicates_true_admits_iff (e : Event) :
    admits (DefaultPredicates true) e = true ↔ e.generationChanged = true := by
  simp [admits, DefaultPredicates, GenerationChangedPredicate]

/-- C3, as stated, fails: under `DefaultPredicates(false)` an event for an
object whose last operation was not successful, and one for an object that is
being deleted, are rejected when the generation did not change and the
operation annotation is absent. -/
theorem defaultPredicates_false_rejects_failed_or_deleting_unchanged :
    admits (DefaultPredicates false)
        { objNamespace := "ns-1", objName := "be-1", objType := "gcp",
          hasOpAnnotation := false, lastOpFailed := true, isDeleting := false,
          generationChanged := false } = false ∧
    admits (DefaultPredicates false)
        { objNamespace := "ns-1", objName := "be-1", objType := "gcp",
          hasOpAnnotation := false, lastOpFailed := false, isDeleting := true,
          generationChanged := false } = false := by
  constructor <;> rfl

/-- C3, amended: under `DefaultPredicates(false)` an event that carries the
operation annotation is admitted even when its generation did not change; an
event with neither the operation annotation nor a generation change is
rejected, whatever the last operation and the deletion state are; and without
the annotation but with a generation change the event is admitted exactly when
the last operation was not successful or the object is being deleted. -/
theorem defaultPredicates_false_without_generation_change (e : Event) :
    admits (DefaultPredicates false)
        { e with hasOpAnnotation := true, generationChanged := false } = true ∧
    admits (DefaultPredicates false)
        { e with hasOpAnnotation := false, generationChanged := false } = false ∧
    admits (DefaultPredicates false)
        { e with hasOpAnnotation := false, generationChanged := true } =
      (e.lastOpFailed || e.isDeleting) := by
  simp [admits, DefaultPredicates, Or, HasOperationAnnotation,
    LastOperationNotSuccessful, IsDeleting, GenerationChangedPredicate]

/-! ## Add: reconciler and predicates -/

/-- C4, evaluated on the code: when `AddArgs.Predicates` is empty, every watch
set up by `Add` carries the type predicate alone; `GenerationChangedPredicate`
is not in that list, and the list admits an event whose generation did not
change as soon as its type matches. -/
theorem Add_unset_predicates_type_predicate_alone {A R O : Type}
    (NewReconciler : Manager → A → R) (rt : Runtime) (mgr : Manager)
    (actuator : A) (options : Options R O) (extensionType : String) (e : Event) :
    (Add NewReconciler rt mgr
        { Actuator := actuator, ControllerOptions := options, Predicates := [],
          Type' := extensionType }).2.watchCalls.map WatchCall.attachedPredicates =
      List.replicate
        (Add NewReconciler rt mgr
          { Actuator := actuator, ControllerOptions := options, Predicates := [],
            Type' := extensionType }).2.watchCalls.length
        [HasType extensionType] ∧
    GenerationChangedPredicate ∉ [HasType extensionType] ∧
    admits [HasType extensionType]
        { e with objType := extensionType, generationChanged := false } = true := by
  refine ⟨?_, ?_, ?_⟩
  · simp only [Add, add, controller.New, Trace.Watch, AddTypePredicate]
    cases rt.newErr <;> simp
    cases rt.watchErr 0 <;> simp [WatchCall.attachedPredicates, Mapper.predicates]
    cases rt.watchErr 1 <;> simp [WatchCall.attachedPredicates, Mapper.predicates]
    cases rt.watchErr 2 <;>
      simp [WatchCall.attachedPredicates, Mapper.predicates, List.replicate]
  · intro h
    have h1 : GenerationChangedPredicate = HasType extensionType := by simpa using h
    have h2 := congrFun h1
      { e with objType := extensionType, generationChanged := false }
    simp [GenerationChangedPredicate, HasType] at h2
  · simp [admits, HasType]

/-- C5: for every `AddArgs`, `Add` runs `add` with the list
`args.Predicates` followed by the type predicate for `args.Type`; that list
admits an event exactly when `args.Predicates` admit it and its declared type
equals `args.Type`; with the other predicates unchanged, an object of type
"aws" passes the type filter for "aws" and is rejected for "gcp". -/
theorem Add_predicates_end_with_type_predicate {A R O : Type}
    (NewReconciler : Manager → A → R) (rt : Runtime) (mgr : Manager)
    (args : AddArgs A R O) (e : Event) :
    Add NewReconciler rt mgr args =
      add rt mgr
        { Reconciler := NewReconciler mgr args.Actuator,
          others := args.ControllerOptions.others }
        (args.Predicates ++ [HasType args.Type']) ∧
    admits (args.Predicates ++ [HasType args.Type']) e =
      (admits args.Predicates e && decide (e.objType = args.Type')) ∧
    admits (AddTypePredicate args.Predicates "aws") { e with objType := "aws" } =
      admits args.Predicates { e with objType := "aws" } ∧
    admits (AddTypePredicate args.Predicates "gcp") { e with objType := "aws" } =
      false := by
  refine ⟨rfl, ?_, ?_, ?_⟩
  · simp [admits, HasType]
  · simp [admits, AddTypePredicate, HasType]
  · simp [admits, AddTypePredicate, HasType]

/-- C7: for every `AddArgs`, whatever reconciler the caller put in
`ControllerOptions`, `Add` calls `controller.New` once, with the controller
name and with options whose `Reconciler` is `NewReconciler(mgr, args.Actuator)`
and whose other fields are those of `args.ControllerOptions`. -/
theorem Add_overrides_reconciler {A R O : Type}
    (NewReconciler : Manager → A → R) (rt : Runtime) (mgr : Manager)
    (args : AddArgs A R O) :
    (Add NewReconciler rt mgr args).2.newCalls =
      [(ControllerName,
        { Reconciler := NewReconciler mgr args.Actuator,
          others := args.ControllerOptions.others })] := by
  simp only [Add, add, controller.New, Trace.Watch]
  cases rt.newErr <;> simp
  cases rt.watchErr 0 <;> simp
  cases rt.watchErr 1 <;> simp
  cases rt.watchErr 2 <;> simp

/-- C9: within one call of `Add`, every watch call carries the same predicate
list, namely the caller's predicates followed by the type filter: the list
given to the Namespace mapper, the list given to the Secret mapper and the
list passed to the BackupEntry `Watch` call. -/
theorem Add_predicates_uniform {A R O : Type}
    (NewReconciler : Manager → A → R) (rt : Runtime) (mgr : Manager)
    (args : AddArgs A R O) :
    (Add NewReconciler rt mgr args).2.watchCalls.map WatchCall.attachedPredicates =
        List.replicate (Add NewReconciler rt mgr args).2.watchCalls.length
          (AddTypePredicate args.Predicates args.Type') ∧
    AddTypePredicate args.Predicates args.Type' =
      args.Predicates ++ [HasType args.Type'] ∧
    (Add NewReconciler okRuntime mgr args).2.watchCalls.map
        (fun w => (w.src, w.attachedPredicates)) =
      [ (Kind.Namespace, AddTypePredicate args.Predicates args.Type'),
        (Kind.Secret, AddTypePredicate args.Predicates args.Type'),
        (Kind.BackupEntry, AddTypePredicate args.Predicates args.Type') ] := by
  refine ⟨?_, rfl, rfl⟩
  simp only [Add, add, controller.New, Trace.Watch]
  cases rt.newErr <;> simp
  cases rt.watchErr 0 <;> simp [WatchCall.attachedPredicates, Mapper.predicates]
  cases rt.watchErr 1 <;> simp [WatchCall.attachedPredicates, Mapper.predicates]
  cases rt.watchErr 2 <;>
    simp [WatchCall.attachedPredicates, Mapper.predicates, List.replicate]

/-! ## add: watch registration -/

/-- C6: in `add`, when `controller.New` succeeds and the Watch call number
`k + 1` (for `k` in 0, 1, 2) is the first to fail, `add` returns exactly that
call's error, the Watch calls made are the first `k + 1` calls of the
successful run and no later one, and the `k` watches registered before stay
registered.  When the second call fails, no Watch call for the BackupEntry
kind is made. -/
theorem add_first_failing_watch {R O : Type} (rt : Runtime) (mgr : Manager)
    (options : Options R O) (predicates : List Predicate) (k : Nat) (err : Err)
    (hnew : rt.newErr = none) (hk : k < 3)
    (hprev : ∀ i, i < k → rt.watchErr i = none)
    (hfail : rt.watchErr k = some err) :
    (add rt mgr options predicates).1 = some err ∧
    (add rt mgr options predicates).2.watchCalls.map (fun w => w.src) =
      [Kind.Namespace, Kind.Secret, Kind.BackupEntry].take (k + 1) ∧
    (add rt mgr options predicates).2.watchCalls =
      (add okRuntime mgr options predicates).2.watchCalls.take (k + 1) ∧
    (add rt mgr options predicates).2.watches =
      (add rt mgr options predicates).2.watchCalls.take k ∧
    (k = 1 → ∀ w ∈ (add rt mgr options predicates).2.watchCalls,
      w.src ≠ Kind.BackupEntry) := by
  interval_cases k
  · simp [add, controller.New, Trace.Watch, hnew, hfail, okRuntime]
  · have h0 : rt.watchErr 0 = none := hprev 0 (by decide)
    simp [add, controller.New, Trace.Watch, hnew, hfail, h0, okRuntime]
  · have h0 : rt.watchErr 0 = none := hprev 0 (by decide)
    have h1 : rt.watchErr 1 = none := hprev 1 (by decide)
    simp [add, controller.New, Trace.Watch, hnew, hfail, h0, h1, okRuntime]

/-- C6, at a concrete input: with a runtime whose second Watch call fails,
`add` returns that error after the Namespace and Secret calls, and only the
Namespace watch is registered. -/
theorem add_first_failing_watch_second :
    (add secondWatchFails exampleManager
        ({ Reconciler := (), others := () } : Options Unit Unit) []).1 =
      some "watch failed" ∧
    (add secondWatchFails exampleManager
        ({ Reconciler := (), others := () } : Options Unit Unit) []).2.watchCalls.map
        (fun w => w.src) = [Kind.Namespace, Kind.Secret] ∧
    (add secondWatchFails exampleManager
        ({ Reconciler := (), others := () } : Options Unit Unit) []).2.watches.map
        (fun w => w.src) = [Kind.Namespace] := by
  have h := add_first_failing_watch secondWatchFails exampleManager
    ({ Reconciler := (), others := () } : Options Unit Unit) [] 1 "watch failed"
    rfl (by decide)
    (by intro i hi; interval_cases i; rfl)
    rfl
  refine ⟨h.1, by simpa using h.2.1, ?_⟩
  rw [h.2.2.2.1, h.2.2.1]
  rfl

/-- C8: when `controller.New` and every Watch call succeed, `add` returns no
error and registers exactly three watches, in the order Namespace, Secret,
BackupEntry; the Namespace and Secret watches use a mapping handler built from
their mapper with update-with-new-object semantics, and only the BackupEntry
watch uses the direct enqueue-for-object handler. -/
theorem add_registers_three_watches {R O : Type} (rt : Runtime) (mgr : Manager)
    (options : Options R O) (predicates : List Predicate)
    (hnew : rt.newErr = none) (hwatch : ∀ i, i < 3 → rt.watchErr i = none) :
    (add rt mgr options predicates).1 = none ∧
    (add rt mgr options predicates).2.created = true ∧
    (add rt mgr options predicates).2.watches =
      [ { src := Kind.Namespace,
          handler := EventHandler.EnqueueRequestsFromMapFunc
            { mapper := Mapper.NamespaceToBackupEntryMapper mgr.GetClient predicates,
              updateBehavior := UpdateBehavior.UpdateWithNew },
          predicates := [] },
        { src := Kind.Secret,
          handler := EventHandler.EnqueueRequestsFromMapFunc
            { mapper := Mapper.SecretToBackupEntryMapper mgr.GetClient predicates,
              updateBehavior := UpdateBehavior.UpdateWithNew },
          predicates := [] },
        { src := Kind.BackupEntry,
          handler := EventHandler.EnqueueRequestForObject,
          predicates := predicates } ] ∧
    (add rt mgr options predicates).2.watchCalls =
      (add rt mgr options predicates).2.watches ∧
    (add rt mgr options predicates).2.watches.map
        (fun w => (w.src, w.handler.isDirect)) =
      [(Kind.Namespace, false), (Kind.Secret, false), (Kind.BackupEntry, true)] := by
  have h0 : rt.watchErr 0 = none := hwatch 0 (by decide)
  have h1 : rt.watchErr 1 = none := hwatch 1 (by decide)
  have h2 : rt.watchErr 2 = none := hwatch 2 (by decide)
  simp [add, controller.New, Trace.Watch, hnew, h0, h1, h2, EventHandler.isDirect]

/-- C8, at a concrete input: with the runtime in which every call succeeds,
`add` returns no error and the registered watches are, in order, a mapped
Namespace watch, a mapped Secret watch and a direct BackupEntry watch. -/
theorem add_registers_three_watches_ok :
    (add okRuntime exampleManager
        ({ Reconciler := (), others := () } : Options Unit Unit) []).1 = none ∧
    (add okRuntime exampleManager
        ({ Reconciler := (), others := () } : Options Unit Unit) []).2.watches.map
        (fun w => (w.src, w.handler.isDirect)) =
      [(Kind.Namespace, false), (Kind.Secret, false), (Kind.BackupEntry, true)] := by
  have h := add_registers_three_watches okRuntime exampleManager
    ({ Reconciler := (), others := () } : Options Unit Unit) [] rfl
    (by intro i _; rfl)
  exact ⟨h.1, h.2.2.2.2⟩

/-- C10: when the controller is created, the first Watch call of `add` is the
Namespace watch with a mapping handler, and on every Namespace update event
its map function yields one request per BackupEntry that the client associates
with the new namespace object and that passes the predicates, keyed by that
BackupEntry's namespace and name; it yields no request when no BackupEntry is
associated or the lookup fails. -/
theorem add_namespace_watch_requests {R O : Type} (rt : Runtime) (mgr : Manager)
    (options : Options R O) (predicates : List Predicate)
    (objectOld objectNew : Object) (hnew : rt.newErr = none) :
    ∃ f : SimpleMapper,
      (add rt mgr options predicates).2.watchCalls.head?.map
          (fun w => (w.src, w.handler.mapFunc?)) = some (Kind.Namespace, some f) ∧
      f.ToRequests (WatchEvent.Update objectOld objectNew) =
        (match mgr.GetClient.backupEntriesOfNamespace objectNew.objName with
         | none => []
         | some bes => (bes.filter (admits predicates)).map requestFor) ∧
      (mgr.GetClient.backupEntriesOfNamespace objectNew.objName = none →
        f.ToRequests (WatchEvent.Update objectOld objectNew) = []) ∧
      (mgr.GetClient.backupEntriesOfNamespace objectNew.objName = some [] →
        f.ToRequests (WatchEvent.Update objectOld objectNew) = []) := by
  refine ⟨{ mapper := Mapper.NamespaceToBackupEntryMapper mgr.GetClient predicates,
            updateBehavior := UpdateBehavior.UpdateWithNew }, ?_, ?_, ?_, ?_⟩
  · cases h0 : rt.watchErr 0 <;> cases h1 : rt.watchErr 1 <;>
      cases h2 : rt.watchErr 2 <;>
      simp [add, controller.New, Trace.Watch, hnew, h0, h1, h2,
        EventHandler.mapFunc?]
  · rfl
  · intro h
    simp [SimpleMapper.ToRequests, Mapper.Map, h]
  · intro h
    simp [SimpleMapper.ToRequests, Mapper.Map, h]

/-- C10, at a concrete input: for the namespace `ns-1` with the single
associated BackupEntry `be-1`, the map function of the Namespace watch yields
exactly the request `ns-1/be-1` on an update event. -/
theorem add_namespace_watch_requests_ns1 :
    ∃ f : SimpleMapper,
      (add okRuntime exampleManager
          ({ Reconciler := (), others := () } : Options Unit Unit)
          (AddTypePredicate (DefaultPredicates false) "gcp")).2.watchCalls.head?.map
          (fun w => (w.src, w.handler.mapFunc?)) = some (Kind.Namespace, some f) ∧
      f.ToRequests (WatchEvent.Update ns1 ns1) =
        [{ reqNamespace := "ns-1", reqName := "be-1" }] := by
  obtain ⟨f, h1, h2, _⟩ := add_namespace_watch_requests okRuntime exampleManager
    ({ Reconciler := (), others := () } : Options Unit Unit)
    (AddTypePredicate (DefaultPredicates false) "gcp") ns1 ns1 rfl
  refine ⟨f, h1, ?_⟩
  rw [h2]
  rfl

end Backupentry
